import Mathlib

/-!
Verification development for the devicehub-api repository.

The embedding below models the current server (the second document of
src/unnamed/part_001): the `devices` and `device_commands` tables, the device
registration and poll protocol, and the admin authentication / command
enqueue endpoints.  The `device_events` and `device_notes` tables are not
modelled: no claim concerns them.

SQL statements are modelled as state transformers on an explicit database
state (`DB`); the model is sequential — each request runs to completion
against the state, and cross-request interleaving at the database's
isolation level is outside its scope.  Timestamps (`now()`) are naturals supplied per call;
uuid command ids are modelled as naturals drawn from an insertion counter
(`nextId`), which preserves exactly what the claims use: uniqueness and
insertion order.  JavaScript string truthiness is modelled by `strTruthy`.
-/

namespace DeviceHub

/-- JSON-like values, used for the jsonb `payload` column of
`device_commands` and for request payload fields. -/
inductive Json where
  | null
  | bool (b : Bool)
  | num (n : Int)
  | str (s : String)
  | arr (elems : List Json)
  | obj (fields : List (String × Json))

/-- JavaScript `typeof v === 'object'`: true for null, arrays and objects. -/
def Json.typeofObject : Json → Bool
  | .null => true
  | .arr _ => true
  | .obj _ => true
  | _ => false

/-- Whether a JSON value is the null value (which the `payload jsonb NOT NULL`
column rejects at insert time). -/
def Json.isNull : Json → Bool
  | .null => true
  | _ => false

/-- The `status` column of `device_commands`
(default 'queued'; set to 'sent', 'done' or 'failed' by the poll handler). -/
inductive CStatus where
  | queued
  | sent
  | done
  | failed
deriving DecidableEq, Repr

/-- A row of the `device_commands` table. -/
structure Command where
  id : Nat
  deviceId : String
  kind : String
  payload : Json
  status : CStatus
  createdAt : Nat
  sentAt : Option Nat
  doneAt : Option Nat
  error : Option String

/-- A row of the `devices` table (the columns the modelled endpoints read or
write; `device_secret` is nullable, hence an `Option`). -/
structure Device where
  deviceId : String
  secret : Option String
  appVersion : Option String
  tauriVersion : Option String
  osName : Option String
  osVersion : Option String
  arch : Option String
  hostname : Option String
  username : Option String
  status : String
  firstSeenAt : Option Nat
  lastSeenAt : Option Nat
  updatedAt : Option Nat
  ipLast : Option String
deriving DecidableEq

/-- The database state: the two modelled tables plus the command-id counter. -/
structure DB where
  devices : List Device
  commands : List Command
  nextId : Nat

/-- JavaScript truthiness of an optional string field
(absent or empty is falsy). -/
def strTruthy (o : Option String) : Bool := o.getD "" ≠ ""

/-- SELECT ... FROM devices WHERE device_id=$1 LIMIT 1. -/
def findDevice (db : DB) (deviceId : String) : Option Device :=
  db.devices.find? (fun d => d.deviceId = deviceId)

/-- The status of the command row with the given id, if present
(SELECT status FROM device_commands WHERE id=$1). -/
def cmdStatus (db : DB) (i : Nat) : Option CStatus :=
  (db.commands.find? (fun c => c.id = i)).map (·.status)

/-- The command row with the given id, if present. -/
def cmdById (db : DB) (i : Nat) : Option Command :=
  db.commands.find? (fun c => c.id = i)

/-- One entry of the `results` array of a poll request body.  A missing or
falsy `id` is modelled as `none`. -/
structure ResultEntry where
  id : Option Nat
  ok : Bool
  error : Option String
deriving DecidableEq

/-- JavaScript `r.error || 'error'`. -/
def jsOrError (o : Option String) : String :=
  if strTruthy o then o.getD "" else "error"

/-- The column assignments of the results-loop UPDATE:
SET status=$2, done_at=now(), error=$3
with $2 = ok ? 'done' : 'failed' and $3 = ok ? null : (r.error || 'error'). -/
def applyResult (ok : Bool) (err : Option String) (now : Nat) (c : Command) : Command :=
  { c with
    status := if ok then .done else .failed
    doneAt := some now
    error := if ok then none else some (jsOrError err) }

/-- The per-row effect of the results-loop UPDATE: rows matching
WHERE id=$1 AND device_id=$4 get the new column values, all others are kept.
Note the source's WHERE clause has no status filter. -/
def recordUpd (deviceId : String) (rid : Nat) (ok : Bool) (err : Option String) (now : Nat)
    (c : Command) : Command :=
  if c.id = rid ∧ c.deviceId = deviceId then applyResult ok err now c else c

/-- One iteration of the poll handler's results loop (the spec's
`recordResult`): skip the entry if it is null or its id is falsy, otherwise
UPDATE device_commands SET status/done_at/error WHERE id=$1 AND device_id=$4. -/
def recordResult (db : DB) (deviceId : String) (r : Option ResultEntry) (now : Nat) : DB :=
  match r with
  | none => db
  | some r =>
    match r.id with
    | none => db
    | some rid =>
      { db with
        commands := db.commands.map (recordUpd deviceId rid r.ok r.error now) }

/-- Math.max(1, Math.min(20, max)) from the dispatch UPDATE's LIMIT. -/
def clampMax (m : Int) : Int := max 1 (min 20 m)

/-- The comparison behind ORDER BY created_at ASC. -/
def createdLE (a b : Command) : Prop := a.createdAt ≤ b.createdAt

instance : DecidableRel createdLE := fun _ _ => inferInstanceAs (Decidable (_ ≤ _))

/-- SELECT id FROM device_commands WHERE device_id=$1 AND status='queued'
(rows in table order). -/
def queuedFor (db : DB) (deviceId : String) : List Command :=
  db.commands.filter (fun c => c.deviceId = deviceId ∧ c.status = .queued)

/-- The inner subquery of the dispatch UPDATE, as one concrete admissible
execution: queued rows of the device ordered by created_at ascending, LIMIT
the clamped count.  ORDER BY created_at ASC leaves the relative order of
rows with equal created_at unspecified (ids are random uuids in the source,
so there is no insertion-order tie-break either); this definition picks the
table-order linearization, and admissibleBatch characterizes every ordering
the statement permits. -/
def selectBatch (db : DB) (deviceId : String) (m : Int) : List Command :=
  ((queuedFor db deviceId).insertionSort createdLE).take (clampMax m).toNat

/-- Exactly what the dispatch subquery guarantees about its result: it is
the first clampMax elements of some enumeration of the device's queued rows
that is nondecreasing in created_at.  Which enumeration is not specified:
rows with equal created_at may come back in any order. -/
def admissibleBatch (db : DB) (deviceId : String) (m : Int) (sel : List Command) : Prop :=
  ∃ perm : List Command, perm.Perm (queuedFor db deviceId)
    ∧ perm.Pairwise createdLE
    ∧ sel = perm.take (clampMax m).toNat

/-- SET status='sent', sent_at=now() applied to one selected row. -/
def markSent (now : Nat) (c : Command) : Command :=
  { c with status := .sent, sentAt := some now }

/-- The per-row effect of the dispatch UPDATE: rows matching
WHERE id IN (ids) are marked sent, all others are kept. -/
def sendUpd (ids : List Nat) (now : Nat) (c : Command) : Command :=
  if c.id ∈ ids then markSent now c else c

/-- The dispatch statement of the poll handler:
UPDATE device_commands SET status='sent', sent_at=now()
WHERE id IN (subquery) RETURNING id, kind, payload.
Returns the updated selected rows and the new table state. -/
def dispatch (db : DB) (deviceId : String) (m : Int) (now : Nat) : List Command × DB :=
  let chosen := selectBatch db deviceId m
  ( chosen.map (markSent now)
  , { db with
      commands := db.commands.map (sendUpd (chosen.map (·.id)) now) } )

/-- UPDATE devices SET device_secret=$1 WHERE device_id=$2
(the trust-on-first-use bootstrap write inside findDeviceForAuth). -/
def setSecret (db : DB) (deviceId secret : String) : DB :=
  { db with
    devices := db.devices.map (fun d =>
      if d.deviceId = deviceId then { d with secret := some secret } else d) }

/-- The findDeviceForAuth function of the source: look the device up; accept
when a truthy stored secret equals the supplied one; otherwise, when no
truthy secret is stored and the supplied one is truthy with length above 8,
persist the supplied secret (bootstrap) and accept; otherwise reject.
Returns the authenticated device (if any) and the possibly-updated state. -/
def findDeviceForAuth (db : DB) (deviceId deviceSecret : String) : Option Device × DB :=
  match findDevice db deviceId with
  | none => (none, db)
  | some d =>
    if strTruthy d.secret ∧ d.secret = some deviceSecret then
      (some d, db)
    else if ¬ strTruthy d.secret ∧ deviceSecret ≠ "" ∧ deviceSecret.length > 8 then
      (some { d with secret := some deviceSecret }, setSecret db deviceId deviceSecret)
    else
      (none, db)

/-- The body of a POST /v1/devices/poll request.  Absent fields are `none`;
the source defaults `max` to 5 and `results` to [].  A null entry in the
results array is a `none` element. -/
structure PollReq where
  deviceId : Option String
  deviceSecret : Option String
  max : Option Int
  results : List (Option ResultEntry)

/-- The response of the poll endpoint: 400 (missing fields), 401, or 200 with
the dispatched commands. -/
inductive PollResp where
  | missingFields
  | unauthorized
  | ok (commands : List Command)

/-- POST /v1/devices/poll: validate the credential fields, authenticate via
findDeviceForAuth, record all supplied results, then dispatch the next batch. -/
def poll (db : DB) (req : PollReq) (now : Nat) : PollResp × DB :=
  if strTruthy req.deviceId ∧ strTruthy req.deviceSecret then
    let did := req.deviceId.getD ""
    match findDeviceForAuth db did (req.deviceSecret.getD "") with
    | (none, db1) => (.unauthorized, db1)
    | (some _, db1) =>
      let db2 := req.results.foldl (fun acc r => recordResult acc did r now) db1
      let out := dispatch db2 did (req.max.getD 5) now
      (.ok out.1, out.2)
  else
    (.missingFields, db)

/-- The ids of the commands a poll call returns (empty on a non-200 response). -/
def pollCommands (db : DB) (req : PollReq) (now : Nat) : List Nat :=
  match (poll db req now).1 with
  | .ok cs => cs.map (·.id)
  | _ => []

/-- The body of a POST /v1/devices/register request (absent fields are none). -/
structure RegisterReq where
  deviceId : Option String
  deviceSecret : Option String
  appVersion : Option String
  tauriVersion : Option String
  osName : Option String
  osVersion : Option String
  arch : Option String
  hostname : Option String
  username : Option String

/-- Response statuses of the simple (register / admin) endpoints. -/
inductive ApiStatus where
  | ok
  | badRequest
  | unauthorized
  | notFound
  | unavailable
  | serverError
deriving DecidableEq, Repr

/-- The INSERT ... ON CONFLICT (device_id) DO UPDATE statement of
POST /v1/devices/register.  On conflict the secret column is set to
COALESCE(EXCLUDED.device_secret, devices.device_secret); on a fresh insert
it is the supplied value, status is 'active' and first_seen_at is now(). -/
def upsertDevice (db : DB) (req : RegisterReq) (ip : Option String) (now : Nat) : DB :=
  let did := req.deviceId.getD ""
  match findDevice db did with
  | none =>
    { db with
      devices := db.devices ++ [{
        deviceId := did
        secret := req.deviceSecret
        appVersion := req.appVersion
        tauriVersion := req.tauriVersion
        osName := req.osName
        osVersion := req.osVersion
        arch := req.arch
        hostname := req.hostname
        username := req.username
        status := "active"
        firstSeenAt := some now
        lastSeenAt := some now
        updatedAt := some now
        ipLast := ip }] }
  | some _ =>
    { db with
      devices := db.devices.map (fun d =>
        if d.deviceId = did then
          { d with
            appVersion := req.appVersion
            tauriVersion := req.tauriVersion
            osName := req.osName
            osVersion := req.osVersion
            arch := req.arch
            hostname := req.hostname
            username := req.username
            secret := match req.deviceSecret with
              | some s => some s
              | none => d.secret
            lastSeenAt := some now
            ipLast := ip
            updatedAt := some now }
        else d) }

/-- POST /v1/devices/register of the current server: 400 unless deviceId and
deviceSecret are truthy, otherwise upsert the device row. -/
def register (db : DB) (req : RegisterReq) (ip : Option String) (now : Nat) : ApiStatus × DB :=
  if strTruthy req.deviceId ∧ strTruthy req.deviceSecret then
    (.ok, upsertDevice db req ip now)
  else
    (.badRequest, db)

/-- INSERT INTO device_commands (device_id, kind, payload): a fresh id,
status 'queued' (column default) and created_at = now(). -/
def appendCommand (db : DB) (deviceId kind : String) (payload : Json) (now : Nat) : DB :=
  { db with
    commands := db.commands ++ [{
      id := db.nextId
      deviceId := deviceId
      kind := kind
      payload := payload
      status := .queued
      createdAt := now
      sentAt := none
      doneAt := none
      error := none }]
    nextId := db.nextId + 1 }

/-- POST /admin/api/devices/:id/commands (after adminAuth): 400 when kind is
falsy or typeof payload is not 'object'; otherwise the INSERT runs.  A
foreign-key violation (unknown device) or a NOT NULL violation (null
payload) is caught by the handler and surfaced as a 500 server error.  A
top-level array passes the typeof check, but node-pg serializes a JS array
as a Postgres array literal, not as JSON: a non-empty array fails jsonb
input (500, no row inserted), while the empty array's literal parses as the
empty jsonb object, so an empty-array payload is stored as an empty
object. -/
def enqueue (db : DB) (deviceId : String) (kind : Option String) (payload : Option Json)
    (now : Nat) : ApiStatus × DB :=
  if ¬ strTruthy kind ∨ ¬ (payload.map Json.typeofObject).getD false then
    (.badRequest, db)
  else if (findDevice db deviceId).isNone then
    (.serverError, db)
  else
    match payload.getD .null with
    | .null => (.serverError, db)
    | .arr [] => (.ok, appendCommand db deviceId (kind.getD "") (.obj []) now)
    | .arr (_ :: _) => (.serverError, db)
    | p => (.ok, appendCommand db deviceId (kind.getD "") p now)

/-- UPDATE devices SET status=$2, updated_at=now() WHERE device_id=$1
(the admin status endpoint's statement; the current server only checks that
the value is truthy). -/
def setStatusDevice (db : DB) (deviceId status : String) (now : Nat) : DB :=
  { db with
    devices := db.devices.map (fun d =>
      if d.deviceId = deviceId then { d with status := status, updatedAt := some now } else d) }

/-- POST /admin/api/devices/:id/status of the current server. -/
def setStatus (db : DB) (deviceId : String) (status : Option String) (now : Nat) :
    ApiStatus × DB :=
  if strTruthy status then
    (.ok, setStatusDevice db deviceId (status.getD "") now)
  else
    (.badRequest, db)

/-- The outcome of the adminAuth middleware: pass the request on, or reject. -/
inductive AdminGate where
  | next
  | unauthorized
  | unavailable
deriving DecidableEq, Repr

/-- The regex replace of the current adminAuth:
(req.headers.authorization || '').replace of a leading case-insensitive
"Bearer" followed by at least one whitespace character.  Implemented over the
character list so that it evaluates by kernel reduction. -/
def stripBearer (s : String) : String :=
  let rest := s.data.drop 6
  let stripped := rest.dropWhile Char.isWhitespace
  if (s.data.take 6).map Char.toLower = "bearer".data ∧ stripped ≠ rest then
    ⟨stripped⟩
  else
    s

/-- JavaScript String.prototype.trim: drop whitespace at both ends. -/
def jsTrim (s : String) : String :=
  ⟨((s.data.dropWhile Char.isWhitespace).reverse.dropWhile Char.isWhitespace).reverse⟩

/-- The credential the current adminAuth extracts from the request:
strip the Bearer marker, then trim. -/
def bearerToken (authHeader : Option String) : String :=
  jsTrim (stripBearer (authHeader.getD ""))

/-- The adminAuth middleware of the current server:
if (!process.env.ADMIN_TOKEN || token === process.env.ADMIN_TOKEN) next();
else 401.  Note the first disjunct: with no configured token every request
passes. -/
def adminAuth (adminToken : Option String) (authHeader : Option String) : AdminGate :=
  if ¬ strTruthy adminToken ∨ bearerToken authHeader = adminToken.getD "" then
    .next
  else
    .unauthorized

/-- The adminAuth middleware of the earlier server revision
(src/unnamed/part_003): 503 when no admin token is configured, then an exact
comparison of the authorization header with "Bearer " + token. -/
def adminAuthLegacy (adminToken : Option String) (authHeader : Option String) : AdminGate :=
  if ¬ strTruthy adminToken then
    .unavailable
  else if authHeader.getD "" = "Bearer " ++ adminToken.getD "" then
    .next
  else
    .unauthorized

/-- The enqueue route behind the adminAuth middleware of the current server. -/
def enqueueEndpoint (adminToken authHeader : Option String) (db : DB) (deviceId : String)
    (kind : Option String) (payload : Option Json) (now : Nat) : ApiStatus × DB :=
  match adminAuth adminToken authHeader with
  | .next => enqueue db deviceId kind payload now
  | .unauthorized => (.unauthorized, db)
  | .unavailable => (.unavailable, db)

/-- One state-mutating API call of the modelled system. -/
inductive ApiCall where
  | register (req : RegisterReq) (ip : Option String) (now : Nat)
  | poll (req : PollReq) (now : Nat)
  | enqueue (deviceId : String) (kind : Option String) (payload : Option Json) (now : Nat)
  | setStatus (deviceId : String) (status : Option String) (now : Nat)

/-- The state effect of one API call. -/
def applyCall (db : DB) (c : ApiCall) : DB :=
  match c with
  | .register req ip now => (register db req ip now).2
  | .poll req now => (poll db req now).2
  | .enqueue d k p now => (enqueue db d k p now).2
  | .setStatus d s now => (setStatus db d s now).2

/-- A run of the system: a sequence of API calls applied in order. -/
def runCalls (db : DB) (cs : List ApiCall) : DB := cs.foldl applyCall db

/-- Well-formedness of the database state, maintained by every statement:
command ids strictly increase along the table (so they are unique and record
insertion order) and stay below the id counter. -/
def WF (db : DB) : Prop :=
  db.commands.Pairwise (fun a b => a.id < b.id) ∧ ∀ c ∈ db.commands, c.id < db.nextId

instance (db : DB) : Decidable (WF db) := by
  unfold WF; infer_instance

/-! ### Response codes, observation helpers and sample data -/

/-- The HTTP status code of a poll response. -/
def PollResp.code : PollResp → Nat
  | .missingFields => 400
  | .unauthorized => 401
  | .ok _ => 200

/-- The HTTP status code of a simple endpoint response. -/
def ApiStatus.code : ApiStatus → Nat
  | .ok => 200
  | .badRequest => 400
  | .unauthorized => 401
  | .notFound => 404
  | .unavailable => 503
  | .serverError => 500

instance : IsTotal Command createdLE :=
  ⟨fun a b => Nat.le_total a.createdAt b.createdAt⟩

instance : IsTrans Command createdLE :=
  ⟨fun _ _ _ h1 h2 => Nat.le_trans h1 h2⟩

/-- The database states visited along a run, including the initial one. -/
def statesAlong (db : DB) : List ApiCall → List DB
  | [] => [db]
  | c :: cs => db :: statesAlong (applyCall db c) cs

/-- Collapse consecutive duplicates, leaving the sequence of distinct
observed values. -/
def squashDedup : List CStatus → List CStatus
  | [] => []
  | [a] => [a]
  | a :: b :: t => if a = b then squashDedup (b :: t) else a :: squashDedup (b :: t)

/-- The sequence of status values the command with the given id takes over a
run of the system (absent observations dropped, consecutive repeats
collapsed). -/
def statusTrace (db : DB) (cs : List ApiCall) (i : Nat) : List CStatus :=
  squashDedup (((statesAlong db cs).map (fun st => cmdStatus st i)).reduceOption)

/-- The status sequences the specification allows: an initial segment of
queued, sent, done or of queued, sent, failed. -/
def ForwardChain (l : List CStatus) : Prop :=
  l <+: [.queued, .sent, .done] ∨ l <+: [.queued, .sent, .failed]

instance (l : List CStatus) : Decidable (ForwardChain l) := by
  unfold ForwardChain; infer_instance

/-- Sample device row without a stored secret. -/
def devNoSecret : Device :=
  { deviceId := "dev-1", secret := none, appVersion := none, tauriVersion := none,
    osName := none, osVersion := none, arch := none, hostname := none, username := none,
    status := "active", firstSeenAt := none, lastSeenAt := none, updatedAt := none,
    ipLast := none }

/-- Sample device row with a stored secret. -/
def devWithSecret : Device := { devNoSecret with secret := some "secret12345" }

/-- Sample queued command (id 1). -/
def cmdPing : Command :=
  { id := 1, deviceId := "dev-1", kind := "ping", payload := .obj [], status := .queued,
    createdAt := 3, sentAt := none, doneAt := none, error := none }

/-- Sample queued command (id 2), created at the same timestamp as cmdPing. -/
def cmdUpdate : Command := { cmdPing with id := 2, kind := "update" }

/-- Sample command already in the sent state. -/
def cmdSent : Command := { cmdPing with status := .sent, sentAt := some 5 }

/-- An empty database. -/
def dbEmpty : DB := { devices := [], commands := [], nextId := 1 }

/-- A database with one registered device that has no stored secret yet. -/
def dbBootstrap : DB := { devices := [devNoSecret], commands := [], nextId := 1 }

/-- A database with one device (stored secret) and no commands. -/
def dbNoCmds : DB := { devices := [devWithSecret], commands := [], nextId := 1 }

/-- A database with one device and one queued command. -/
def dbOneQueued : DB := { devices := [devWithSecret], commands := [cmdPing], nextId := 2 }

/-- A database with one device and two queued commands. -/
def dbTwoQueued : DB :=
  { devices := [devWithSecret], commands := [cmdPing, cmdUpdate], nextId := 3 }

/-- A database with one device and one sent command. -/
def dbOneSent : DB := { devices := [devWithSecret], commands := [cmdSent], nextId := 2 }

/-- A poll request reporting success of command 1 and asking for work. -/
def pollReportReq : PollReq :=
  { deviceId := some "dev-1", deviceSecret := some "secret12345", max := none,
    results := [some ⟨some 1, true, none⟩] }

/-- A poll request with no results. -/
def pollPlainReq : PollReq :=
  { deviceId := some "dev-1", deviceSecret := some "secret12345", max := some 1,
    results := [] }

/-- A poll request with an unknown device id and an empty (falsy) secret. -/
def pollEmptySecretReq : PollReq :=
  { deviceId := some "ghost", deviceSecret := some "", max := none, results := [] }

/-- A register request carrying a first secret. -/
def regFirst : RegisterReq :=
  { deviceId := some "dev-9", deviceSecret := some "firstsecret1", appVersion := none,
    tauriVersion := none, osName := none, osVersion := none, arch := none,
    hostname := none, username := none }

/-- The same register request with a different secret. -/
def regSecond : RegisterReq := { regFirst with deviceSecret := some "secondsecret2" }

/-- A run: enqueue a command for dev-1, then a poll that reports it done. -/
def callsReportQueued : List ApiCall :=
  [.enqueue "dev-1" (some "ping") (some (.obj [])) 3, .poll pollReportReq 7]

/-- The state after a first successful result report for command 1 (which is
then in the done state with doneAt 10). -/
def dbAfterFirst : DB := recordResult dbOneSent "dev-1" (some ⟨some 1, true, none⟩) 10

/-- The device row the register endpoint inserts for regFirst at time 1. -/
def devRegFirst : Device :=
  { deviceId := "dev-9", secret := some "firstsecret1", appVersion := none,
    tauriVersion := none, osName := none, osVersion := none, arch := none,
    hostname := none, username := none, status := "active", firstSeenAt := some 1,
    lastSeenAt := some 1, updatedAt := some 1, ipLast := none }

/-- A poll request with truthy credentials for an unknown device id. -/
def pollGhostReq : PollReq :=
  { deviceId := some "ghost", deviceSecret := some "secret12345", max := none, results := [] }

/-! ### What a single statement can do to one command's status -/

/-- The status changes a single modelled statement can make to the command
with a fixed id: leave it alone, create it as queued, promote a queued
command to sent (dispatch), or finalize an existing command as done or
failed (result recording — which, in this code, applies from any current
status). -/
def StatusStep (before after : Option CStatus) : Prop :=
  after = before
  ∨ (before = some .queued ∧ after = some .sent)
  ∨ (before.isSome = true ∧ (after = some .done ∨ after = some .failed))
  ∨ (before = none ∧ after = some .queued)

instance (b a : Option CStatus) : Decidable (StatusStep b a) := by
  unfold StatusStep; infer_instance

/-- The sub-relation realized by result recording. -/
def RecordStep (before after : Option CStatus) : Prop :=
  after = before
  ∨ (before.isSome = true ∧ (after = some .done ∨ after = some .failed))

/-- The sub-relation realized by dispatch. -/
def SendStep (before after : Option CStatus) : Prop :=
  after = before ∨ (before = some .queued ∧ after = some .sent)

/-! ### Row-update helpers preserve the key columns -/

theorem applyResult_id (ok : Bool) (err : Option String) (now : Nat) (c : Command) :
    (applyResult ok err now c).id = c.id := rfl

theorem applyResult_deviceId (ok : Bool) (err : Option String) (now : Nat) (c : Command) :
    (applyResult ok err now c).deviceId = c.deviceId := rfl

theorem recordUpd_id (d : String) (rid : Nat) (ok : Bool) (err : Option String) (now : Nat)
    (c : Command) : (recordUpd d rid ok err now c).id = c.id := by
  unfold recordUpd; split <;> rfl

theorem recordUpd_deviceId (d : String) (rid : Nat) (ok : Bool) (err : Option String)
    (now : Nat) (c : Command) : (recordUpd d rid ok err now c).deviceId = c.deviceId := by
  unfold recordUpd; split <;> rfl

theorem markSent_id (now : Nat) (c : Command) : (markSent now c).id = c.id := rfl

theorem sendUpd_id (ids : List Nat) (now : Nat) (c : Command) :
    (sendUpd ids now c).id = c.id := by
  unfold sendUpd; split <;> rfl

theorem sendUpd_deviceId (ids : List Nat) (now : Nat) (c : Command) :
    (sendUpd ids now c).deviceId = c.deviceId := by
  unfold sendUpd; split <;> rfl

/-! ### Looking rows up by their key after a keyed UPDATE -/

theorem find?_id_map {g : Command → Command} (hg : ∀ c, (g c).id = c.id)
    (l : List Command) (i : Nat) :
    (l.map g).find? (fun c => c.id = i) = (l.find? (fun c => c.id = i)).map g := by
  rw [List.find?_map]
  have hp : ((fun c => decide (c.id = i)) ∘ g) = (fun c => decide (c.id = i)) := by
    funext c
    simp [Function.comp, hg]
  rw [hp]

theorem cmdStatus_commands_map {g : Command → Command} (hg : ∀ c, (g c).id = c.id)
    (db : DB) (n : Nat) (i : Nat) :
    cmdStatus { db with commands := db.commands.map g, nextId := n } i
      = (db.commands.find? (fun c => c.id = i)).map (fun c => (g c).status) := by
  show ((db.commands.map g).find? (fun c => c.id = i)).map (·.status) = _
  rw [find?_id_map hg]
  cases db.commands.find? (fun c => c.id = i) <;> rfl

theorem find?_deviceId_map {g : Device → Device} (hg : ∀ d, (g d).deviceId = d.deviceId)
    (l : List Device) (did : String) :
    (l.map g).find? (fun d => d.deviceId = did)
      = (l.find? (fun d => d.deviceId = did)).map g := by
  rw [List.find?_map]
  have hp : ((fun d => decide (d.deviceId = did)) ∘ g)
      = (fun d => decide (d.deviceId = did)) := by
    funext d
    simp [Function.comp, hg]
  rw [hp]

/-- With strictly increasing ids, looking a member row up by its id finds it. -/
theorem find?_eq_of_mem {l : List Command}
    (h : l.Pairwise (fun a b => a.id < b.id)) {c : Command} (hc : c ∈ l) :
    l.find? (fun x => x.id = c.id) = some c := by
  induction l with
  | nil => cases hc
  | cons x t ih =>
    rcases List.pairwise_cons.mp h with ⟨hx, ht⟩
    rcases List.mem_cons.mp hc with rfl | hct
    · simp [List.find?_cons]
    · have hne : x.id ≠ c.id := Nat.ne_of_lt (hx c hct)
      rw [List.find?_cons_of_neg _ (by simpa using hne)]
      exact ih ht hct

/-- With strictly increasing ids, rows are determined by their id. -/
theorem eq_of_mem_of_id_eq {l : List Command}
    (h : l.Pairwise (fun a b => a.id < b.id)) {c c' : Command}
    (hc : c ∈ l) (hc' : c' ∈ l) (hid : c.id = c'.id) : c = c' := by
  have h1 := find?_eq_of_mem h hc
  have h2 := find?_eq_of_mem h hc'
  rw [hid] at h1
  exact Option.some_injective _ (h1.symm.trans h2)

theorem recordStep_statusStep {b a : Option CStatus} (h : RecordStep b a) : StatusStep b a := by
  rcases h with h | h
  · exact Or.inl h
  · exact Or.inr (Or.inr (Or.inl h))

theorem sendStep_statusStep {b a : Option CStatus} (h : SendStep b a) : StatusStep b a := by
  rcases h with h | h
  · exact Or.inl h
  · exact Or.inr (Or.inl h)

theorem RecordStep.trans {b m a : Option CStatus} (h1 : RecordStep b m) (h2 : RecordStep m a) :
    RecordStep b a := by
  rcases h1 with h1 | h1
  · rw [h1] at h2; exact h2
  · rcases h2 with h2 | h2
    · rw [h2]; exact Or.inr h1
    · exact Or.inr ⟨h1.1, h2.2⟩

theorem RecordStep.then_send {b m a : Option CStatus} (h1 : RecordStep b m) (h2 : SendStep m a) :
    StatusStep b a := by
  rcases h1 with h1 | h1
  · rw [h1] at h2; exact sendStep_statusStep h2
  · rcases h2 with h2 | h2
    · rw [h2]; exact recordStep_statusStep (Or.inr h1)
    · rcases h1.2 with hm | hm <;> rw [hm] at h2 <;> cases h2.1


/-! ### Per-statement status lemmas -/

theorem recordResult_recordStep (db : DB) (d : String) (r : Option ResultEntry) (now i : Nat) :
    RecordStep (cmdStatus db i) (cmdStatus (recordResult db d r now) i) := by
  rcases r with _ | ⟨_ | rid, ok, err⟩
  · exact Or.inl rfl
  · exact Or.inl rfl
  · have hdef : recordResult db d (some ⟨some rid, ok, err⟩) now
        = { db with commands := db.commands.map (recordUpd d rid ok err now) } := rfl
    rw [hdef, cmdStatus_commands_map (recordUpd_id d rid ok err now) db db.nextId i]
    unfold cmdStatus
    cases hf : db.commands.find? (fun c => c.id = i) with
    | none => exact Or.inl rfl
    | some c =>
      simp only [Option.map_some']
      unfold recordUpd
      split
      · refine Or.inr ⟨rfl, ?_⟩
        unfold applyResult
        cases ok
        · exact Or.inr rfl
        · exact Or.inl rfl
      · exact Or.inl rfl

/-- Every selected row of a dispatch comes from the table, belongs to the
polled device and was queued. -/
theorem selectBatch_mem {db : DB} {d : String} {m : Int} {c : Command}
    (hc : c ∈ selectBatch db d m) :
    c ∈ db.commands ∧ c.deviceId = d ∧ c.status = .queued := by
  unfold selectBatch at hc
  have h1 : c ∈ (queuedFor db d).insertionSort createdLE := List.take_subset _ _ hc
  have h2 : c ∈ queuedFor db d := (List.mem_insertionSort createdLE).mp h1
  unfold queuedFor at h2
  have h3 := List.mem_filter.mp h2
  refine ⟨h3.1, ?_, ?_⟩
  · exact (of_decide_eq_true h3.2).1
  · exact (of_decide_eq_true h3.2).2

theorem dispatch_state (db : DB) (d : String) (m : Int) (now : Nat) :
    (dispatch db d m now).2
      = { db with commands := db.commands.map (sendUpd ((selectBatch db d m).map (·.id)) now) } :=
  rfl

theorem dispatch_rows (db : DB) (d : String) (m : Int) (now : Nat) :
    (dispatch db d m now).1 = (selectBatch db d m).map (markSent now) :=
  rfl

theorem dispatch_sendStep (db : DB) (d : String) (m : Int) (now : Nat) (hWF : WF db) (i : Nat) :
    SendStep (cmdStatus db i) (cmdStatus (dispatch db d m now).2 i) := by
  rw [dispatch_state,
    cmdStatus_commands_map (sendUpd_id ((selectBatch db d m).map (·.id)) now) db db.nextId i]
  unfold cmdStatus
  cases hf : db.commands.find? (fun c => c.id = i) with
  | none => exact Or.inl rfl
  | some c =>
    simp only [Option.map_some']
    unfold sendUpd
    split
    case isTrue hmem =>
      rcases List.mem_map.mp hmem with ⟨ch, hch, hchid⟩
      have hsel := selectBatch_mem hch
      have hcmem : c ∈ db.commands := List.mem_of_find?_eq_some hf
      have hce : ch = c := eq_of_mem_of_id_eq hWF.1 hsel.1 hcmem hchid
      refine Or.inr ⟨?_, rfl⟩
      rw [← hce, hsel.2.2]
    case isFalse => exact Or.inl rfl

/-! ### Statements preserve well-formedness -/

theorem wf_commands_map {db : DB} (hWF : WF db) {g : Command → Command}
    (hg : ∀ c, (g c).id = c.id) :
    WF { db with commands := db.commands.map g } := by
  constructor
  · rw [List.pairwise_map]
    exact hWF.1.imp (fun {a b} h => by rw [hg a, hg b]; exact h)
  · intro c hc
    rcases List.mem_map.mp hc with ⟨c0, hc0, rfl⟩
    rw [hg c0]
    exact hWF.2 c0 hc0

theorem wf_of_same_commands {db db' : DB} (hc : db'.commands = db.commands)
    (hn : db'.nextId = db.nextId) (hWF : WF db) : WF db' := by
  constructor
  · rw [hc]; exact hWF.1
  · intro c hcm
    rw [hc] at hcm
    rw [hn]
    exact hWF.2 c hcm

theorem cmdStatus_congr {db db' : DB} (h : db'.commands = db.commands) (i : Nat) :
    cmdStatus db' i = cmdStatus db i := by
  unfold cmdStatus
  rw [h]

theorem wf_recordResult {db : DB} (hWF : WF db) (d : String) (r : Option ResultEntry)
    (now : Nat) : WF (recordResult db d r now) := by
  rcases r with _ | ⟨_ | rid, ok, err⟩
  · exact hWF
  · exact hWF
  · exact wf_commands_map hWF (recordUpd_id d rid ok err now)

theorem wf_dispatch {db : DB} (hWF : WF db) (d : String) (m : Int) (now : Nat) :
    WF (dispatch db d m now).2 := by
  rw [dispatch_state]
  exact wf_commands_map hWF (sendUpd_id ((selectBatch db d m).map (·.id)) now)

theorem wf_appendCommand {db : DB} (hWF : WF db) (d k : String) (p : Json) (now : Nat) :
    WF (appendCommand db d k p now) := by
  unfold appendCommand
  constructor
  · dsimp only
    rw [List.pairwise_append]
    refine ⟨hWF.1, List.pairwise_singleton _ _, ?_⟩
    intro a ha b hb
    rw [List.mem_singleton.mp hb]
    exact hWF.2 a ha
  · dsimp only
    intro c hc
    rcases List.mem_append.mp hc with h | h
    · exact Nat.lt_succ_of_lt (hWF.2 c h)
    · rw [List.mem_singleton.mp h]
      exact Nat.lt_succ_self _

/-! ### Which tables each statement touches -/

theorem setSecret_commands (db : DB) (d s : String) : (setSecret db d s).commands = db.commands :=
  rfl

theorem setSecret_nextId (db : DB) (d s : String) : (setSecret db d s).nextId = db.nextId :=
  rfl

theorem upsertDevice_commands (db : DB) (req : RegisterReq) (ip : Option String) (now : Nat) :
    (upsertDevice db req ip now).commands = db.commands := by
  unfold upsertDevice
  dsimp only
  cases findDevice db (req.deviceId.getD "") <;> rfl

theorem upsertDevice_nextId (db : DB) (req : RegisterReq) (ip : Option String) (now : Nat) :
    (upsertDevice db req ip now).nextId = db.nextId := by
  unfold upsertDevice
  dsimp only
  cases findDevice db (req.deviceId.getD "") <;> rfl

theorem setStatusDevice_commands (db : DB) (d st : String) (now : Nat) :
    (setStatusDevice db d st now).commands = db.commands := rfl

theorem setStatusDevice_nextId (db : DB) (d st : String) (now : Nat) :
    (setStatusDevice db d st now).nextId = db.nextId := rfl

theorem recordResult_devices (db : DB) (d : String) (r : Option ResultEntry) (now : Nat) :
    (recordResult db d r now).devices = db.devices := by
  rcases r with _ | ⟨_ | rid, ok, err⟩ <;> rfl

theorem dispatch_devices (db : DB) (d : String) (m : Int) (now : Nat) :
    ((dispatch db d m now).2).devices = db.devices := rfl

theorem appendCommand_devices (db : DB) (d k : String) (p : Json) (now : Nat) :
    (appendCommand db d k p now).devices = db.devices := rfl

theorem findDeviceForAuth_commands (db : DB) (did s : String) :
    ((findDeviceForAuth db did s).2).commands = db.commands := by
  unfold findDeviceForAuth
  cases findDevice db did with
  | none => rfl
  | some d =>
    dsimp only
    split
    · rfl
    · split <;> rfl

theorem findDeviceForAuth_nextId (db : DB) (did s : String) :
    ((findDeviceForAuth db did s).2).nextId = db.nextId := by
  unfold findDeviceForAuth
  cases findDevice db did with
  | none => rfl
  | some d =>
    dsimp only
    split
    · rfl
    · split <;> rfl

/-! ### Status transitions of whole statements and calls -/

theorem appendCommand_statusStep (db : DB) (d k : String) (p : Json) (now i : Nat) :
    StatusStep (cmdStatus db i) (cmdStatus (appendCommand db d k p now) i) := by
  unfold appendCommand cmdStatus
  dsimp only
  rw [List.find?_append]
  cases hf : db.commands.find? (fun c => c.id = i) with
  | some c => exact Or.inl rfl
  | none =>
    by_cases hi : db.nextId = i
    · rw [List.find?_cons_of_pos _ (by simpa using hi)]
      exact Or.inr (Or.inr (Or.inr ⟨rfl, rfl⟩))
    · rw [List.find?_cons_of_neg _ (by simpa using hi)]
      exact Or.inl rfl

theorem foldl_record_recordStep (results : List (Option ResultEntry)) (db : DB) (d : String)
    (now i : Nat) :
    RecordStep (cmdStatus db i)
      (cmdStatus (results.foldl (fun acc r => recordResult acc d r now) db) i) := by
  induction results generalizing db with
  | nil => exact Or.inl rfl
  | cons r rest ih => exact (recordResult_recordStep db d r now i).trans (ih _)

theorem wf_foldl_record (results : List (Option ResultEntry)) {db : DB} (hWF : WF db)
    (d : String) (now : Nat) :
    WF (results.foldl (fun acc r => recordResult acc d r now) db) := by
  induction results generalizing db with
  | nil => exact hWF
  | cons r rest ih => exact ih (wf_recordResult hWF d r now)

theorem foldl_record_devices (results : List (Option ResultEntry)) (db : DB) (d : String)
    (now : Nat) :
    (results.foldl (fun acc r => recordResult acc d r now) db).devices = db.devices := by
  induction results generalizing db with
  | nil => rfl
  | cons r rest ih => rw [List.foldl_cons, ih, recordResult_devices]

/-! ### The ids a dispatch returns -/

theorem dispatch_output_ids (db : DB) (d : String) (m : Int) (now : Nat) :
    (dispatch db d m now).1.map (·.id) = (selectBatch db d m).map (·.id) := by
  rw [dispatch_rows, List.map_map]
  exact List.map_congr_left (fun c _ => rfl)

/-! ### The poll endpoint as a composition of its statements -/

theorem setSecret_devices_ids (db : DB) (d s : String) :
    (setSecret db d s).devices.map (·.deviceId) = db.devices.map (·.deviceId) := by
  unfold setSecret
  dsimp only
  rw [List.map_map]
  refine List.map_congr_left (fun e _ => ?_)
  show (if e.deviceId = d then { e with secret := some s } else e).deviceId = e.deviceId
  split <;> rfl

theorem findDeviceForAuth_devices_ids (db : DB) (did s : String) :
    ((findDeviceForAuth db did s).2).devices.map (·.deviceId)
      = db.devices.map (·.deviceId) := by
  unfold findDeviceForAuth
  cases findDevice db did with
  | none => rfl
  | some d =>
    dsimp only
    split
    · rfl
    · split
      · exact setSecret_devices_ids db did s
      · rfl

theorem poll_statusStep (db : DB) (req : PollReq) (now : Nat) (hWF : WF db) (i : Nat) :
    StatusStep (cmdStatus db i) (cmdStatus (poll db req now).2 i) := by
  unfold poll
  dsimp only
  split
  · split
    next r db1 heq =>
      have hc : db1.commands = db.commands := by
        rw [show db1 = (findDeviceForAuth db (req.deviceId.getD "") (req.deviceSecret.getD "")).2
              from (congrArg Prod.snd heq).symm]
        exact findDeviceForAuth_commands _ _ _
      exact Or.inl (cmdStatus_congr hc i)
    next dev db1 heq =>
      have hdb1 : db1
          = (findDeviceForAuth db (req.deviceId.getD "") (req.deviceSecret.getD "")).2 :=
        (congrArg Prod.snd heq).symm
      have hc : db1.commands = db.commands := by
        rw [hdb1]
        exact findDeviceForAuth_commands _ _ _
      have hn : db1.nextId = db.nextId := by
        rw [hdb1]
        exact findDeviceForAuth_nextId _ _ _
      have hWF1 : WF db1 := wf_of_same_commands hc hn hWF
      have h0 : cmdStatus db i = cmdStatus db1 i := (cmdStatus_congr hc i).symm
      rw [h0]
      exact (foldl_record_recordStep req.results db1 _ now i).then_send
        (dispatch_sendStep _ _ _ now (wf_foldl_record req.results hWF1 _ now) i)
  · exact Or.inl rfl

theorem wf_poll {db : DB} (hWF : WF db) (req : PollReq) (now : Nat) :
    WF (poll db req now).2 := by
  unfold poll
  dsimp only
  split
  · split
    next r db1 heq =>
      have hdb1 : db1
          = (findDeviceForAuth db (req.deviceId.getD "") (req.deviceSecret.getD "")).2 :=
        (congrArg Prod.snd heq).symm
      exact wf_of_same_commands (by rw [hdb1]; exact findDeviceForAuth_commands _ _ _)
        (by rw [hdb1]; exact findDeviceForAuth_nextId _ _ _) hWF
    next dev db1 heq =>
      have hdb1 : db1
          = (findDeviceForAuth db (req.deviceId.getD "") (req.deviceSecret.getD "")).2 :=
        (congrArg Prod.snd heq).symm
      have hWF1 : WF db1 := wf_of_same_commands
        (by rw [hdb1]; exact findDeviceForAuth_commands _ _ _)
        (by rw [hdb1]; exact findDeviceForAuth_nextId _ _ _) hWF
      exact wf_dispatch (wf_foldl_record req.results hWF1 _ now) _ _ now
  · exact hWF

theorem poll_devices_ids (db : DB) (req : PollReq) (now : Nat) :
    ((poll db req now).2).devices.map (·.deviceId) = db.devices.map (·.deviceId) := by
  unfold poll
  dsimp only
  split
  · split
    next r db1 heq =>
      rw [show db1 = (findDeviceForAuth db (req.deviceId.getD "") (req.deviceSecret.getD "")).2
            from (congrArg Prod.snd heq).symm]
      exact findDeviceForAuth_devices_ids _ _ _
    next dev db1 heq =>
      rw [show ((dispatch (req.results.foldl
              (fun acc r => recordResult acc (req.deviceId.getD "") r now) db1)
              (req.deviceId.getD "") (req.max.getD 5) now).2).devices
            = (req.results.foldl
              (fun acc r => recordResult acc (req.deviceId.getD "") r now) db1).devices
          from dispatch_devices _ _ _ _]
      rw [foldl_record_devices]
      rw [show db1 = (findDeviceForAuth db (req.deviceId.getD "") (req.deviceSecret.getD "")).2
            from (congrArg Prod.snd heq).symm]
      exact findDeviceForAuth_devices_ids _ _ _
  · rfl

theorem enqueue_devices (db : DB) (d : String) (k : Option String) (p : Option Json)
    (now : Nat) : ((enqueue db d k p now).2).devices = db.devices := by
  unfold enqueue
  split
  · rfl
  · split
    · rfl
    · split <;> rfl

theorem wf_register {db : DB} (hWF : WF db) (req : RegisterReq) (ip : Option String)
    (now : Nat) : WF (register db req ip now).2 := by
  unfold register
  split
  · exact wf_of_same_commands (upsertDevice_commands _ _ _ _) (upsertDevice_nextId _ _ _ _) hWF
  · exact hWF

theorem wf_enqueue {db : DB} (hWF : WF db) (d : String) (k : Option String)
    (p : Option Json) (now : Nat) : WF (enqueue db d k p now).2 := by
  unfold enqueue
  split
  · exact hWF
  · split
    · exact hWF
    · split <;> first | exact hWF | exact wf_appendCommand hWF _ _ _ now

theorem wf_setStatus {db : DB} (hWF : WF db) (d : String) (st : Option String) (now : Nat) :
    WF (setStatus db d st now).2 := by
  unfold setStatus
  split
  · exact wf_of_same_commands (setStatusDevice_commands _ _ _ _)
      (setStatusDevice_nextId _ _ _ _) hWF
  · exact hWF

theorem wf_applyCall {db : DB} (hWF : WF db) (c : ApiCall) : WF (applyCall db c) := by
  cases c with
  | register req ip now => exact wf_register hWF req ip now
  | poll req now => exact wf_poll hWF req now
  | enqueue d k p now => exact wf_enqueue hWF d k p now
  | setStatus d st now => exact wf_setStatus hWF d st now

theorem applyCall_statusStep (db : DB) (c : ApiCall) (hWF : WF db) (i : Nat) :
    StatusStep (cmdStatus db i) (cmdStatus (applyCall db c) i) := by
  cases c with
  | register req ip now =>
    refine Or.inl (cmdStatus_congr ?_ i)
    show ((register db req ip now).2).commands = db.commands
    unfold register
    split
    · exact upsertDevice_commands _ _ _ _
    · rfl
  | poll req now => exact poll_statusStep db req now hWF i
  | enqueue d k p now =>
    show StatusStep (cmdStatus db i) (cmdStatus (enqueue db d k p now).2 i)
    unfold enqueue
    split
    · exact Or.inl rfl
    · split
      · exact Or.inl rfl
      · split <;> first
          | exact Or.inl rfl
          | exact appendCommand_statusStep db d _ _ now i
  | setStatus d st now =>
    refine Or.inl (cmdStatus_congr ?_ i)
    show ((setStatus db d st now).2).commands = db.commands
    unfold setStatus
    split
    · exact setStatusDevice_commands _ _ _ _
    · rfl

/-! ### Recorded results are terminal before dispatch runs -/

theorem recordResult_matching_terminal (db : DB) (d : String) (rid : Nat) (ok : Bool)
    (err : Option String) (now : Nat) :
    ∀ c ∈ (recordResult db d (some ⟨some rid, ok, err⟩) now).commands,
      c.id = rid → c.deviceId = d → c.status = .done ∨ c.status = .failed := by
  intro c hc hid hdev
  have hdef : (recordResult db d (some ⟨some rid, ok, err⟩) now).commands
      = db.commands.map (recordUpd d rid ok err now) := rfl
  rw [hdef] at hc
  rcases List.mem_map.mp hc with ⟨c0, hc0, rfl⟩
  rw [recordUpd_id] at hid
  rw [recordUpd_deviceId] at hdev
  unfold recordUpd
  rw [if_pos ⟨hid, hdev⟩]
  unfold applyResult
  cases ok
  · exact Or.inr rfl
  · exact Or.inl rfl

theorem recordResult_keeps_terminal {db : DB} {d2 : String} {rid : Nat}
    (h : ∀ c ∈ db.commands, c.id = rid → c.deviceId = d2 →
      c.status = .done ∨ c.status = .failed)
    (d : String) (r : Option ResultEntry) (now : Nat) :
    ∀ c ∈ (recordResult db d r now).commands, c.id = rid → c.deviceId = d2 →
      c.status = .done ∨ c.status = .failed := by
  rcases r with _ | ⟨_ | rid2, ok, err⟩
  · exact h
  · exact h
  · intro c hc hid hdev
    have hdef : (recordResult db d (some ⟨some rid2, ok, err⟩) now).commands
        = db.commands.map (recordUpd d rid2 ok err now) := rfl
    rw [hdef] at hc
    rcases List.mem_map.mp hc with ⟨c0, hc0, rfl⟩
    rw [recordUpd_id] at hid
    rw [recordUpd_deviceId] at hdev
    unfold recordUpd
    split
    · unfold applyResult
      cases ok
      · exact Or.inr rfl
      · exact Or.inl rfl
    · exact h c0 hc0 hid hdev

theorem foldl_record_keeps_terminal {db : DB} {d2 : String} {rid : Nat}
    (h : ∀ c ∈ db.commands, c.id = rid → c.deviceId = d2 →
      c.status = .done ∨ c.status = .failed)
    (results : List (Option ResultEntry)) (d : String) (now : Nat) :
    ∀ c ∈ (results.foldl (fun acc r => recordResult acc d r now) db).commands,
      c.id = rid → c.deviceId = d2 → c.status = .done ∨ c.status = .failed := by
  induction results generalizing db with
  | nil => exact h
  | cons r rest ih =>
    rw [List.foldl_cons]
    exact ih (recordResult_keeps_terminal h d r now)

theorem foldl_record_matching_terminal {rid : Nat} {ok : Bool} {err : Option String}
    (results : List (Option ResultEntry)) (he : some ⟨some rid, ok, err⟩ ∈ results)
    (db : DB) (d : String) (now : Nat) :
    ∀ c ∈ (results.foldl (fun acc r => recordResult acc d r now) db).commands,
      c.id = rid → c.deviceId = d → c.status = .done ∨ c.status = .failed := by
  induction results generalizing db with
  | nil => cases he
  | cons r rest ih =>
    rw [List.foldl_cons]
    rcases List.mem_cons.mp he with rfl | he2
    · exact foldl_record_keeps_terminal
        (recordResult_matching_terminal db d rid ok err now) rest d now
    · exact ih he2 _

/-! ### Ordering of a dispatched batch -/

theorem selectBatch_length (db : DB) (d : String) (m : Int) :
    (selectBatch db d m).length ≤ (clampMax m).toNat := by
  unfold selectBatch
  rw [List.length_take]
  exact min_le_left _ _

/-- Rows of other devices are untouched by a dispatch. -/
theorem dispatch_other_devices {db : DB} (hWF : WF db) (d : String) (m : Int) (now : Nat) :
    ((dispatch db d m now).2).commands.filter (fun c => ¬ c.deviceId = d)
      = db.commands.filter (fun c => ¬ c.deviceId = d) := by
  rw [dispatch_state]
  show (db.commands.map (sendUpd ((selectBatch db d m).map (·.id)) now)).filter _ = _
  rw [List.filter_map]
  have hp : ((fun c => decide (¬ c.deviceId = d)) ∘ sendUpd ((selectBatch db d m).map (·.id)) now)
      = (fun c => decide (¬ c.deviceId = d)) := by
    funext c
    simp [Function.comp, sendUpd_deviceId]
  rw [hp]
  refine (List.map_congr_left ?_).trans (List.map_id _)
  intro c hcf
  have hcl := List.mem_filter.mp hcf
  have hnd : c.deviceId ≠ d := by simpa using hcl.2
  show sendUpd ((selectBatch db d m).map (·.id)) now c = id c
  unfold sendUpd
  rw [if_neg ?_]
  · rfl
  · intro hmem
    rcases List.mem_map.mp hmem with ⟨ch, hch, hchid⟩
    have hsel := selectBatch_mem hch
    have hce : ch = c := eq_of_mem_of_id_eq hWF.1 hsel.1 hcl.1 hchid
    exact hnd (hce ▸ hsel.2.1)

/-! ### Device lookup after device-table updates -/

theorem findDevice_map_upd (db : DB) (did : String) {g : Device → Device}
    (hg : ∀ d, (g d).deviceId = d.deviceId) :
    findDevice { db with devices := db.devices.map g } did = (findDevice db did).map g := by
  unfold findDevice
  exact find?_deviceId_map hg db.devices did

theorem findDevice_setSecret (db : DB) (did s : String) :
    findDevice (setSecret db did s) did
      = (findDevice db did).map (fun d => { d with secret := some s }) := by
  unfold setSecret
  rw [findDevice_map_upd db did (fun d => by split <;> rfl)]
  unfold findDevice
  cases hf : db.devices.find? (fun d => d.deviceId = did) with
  | none => rfl
  | some d =>
    rw [Option.map_some', Option.map_some']
    have hdid : d.deviceId = did := by simpa using List.find?_some hf
    rw [if_pos hdid]

/-- A device whose stored secret is truthy is never touched by
findDeviceForAuth (whatever secret is supplied). -/
theorem findDeviceForAuth_keeps_truthy_secret (db : DB) (did s : String) {d : Device}
    (hd : findDevice db did = some d) (ht : strTruthy d.secret = true) :
    (findDeviceForAuth db did s).2 = db := by
  unfold findDeviceForAuth
  rw [hd]
  dsimp only
  split
  · rfl
  · split
    next hcond => cases hcond.1 ht
    · rfl

/-- A poll with truthy credentials for an unknown device id returns 401 and
leaves the state untouched. -/
theorem poll_unknown_unauthorized (db : DB) (req : PollReq) (now : Nat)
    (h1 : strTruthy req.deviceId = true) (h2 : strTruthy req.deviceSecret = true)
    (hno : findDevice db (req.deviceId.getD "") = none) :
    poll db req now = (.unauthorized, db) := by
  unfold poll
  rw [if_pos ⟨h1, h2⟩]
  dsimp only
  have hfa : findDeviceForAuth db (req.deviceId.getD "") (req.deviceSecret.getD "")
      = (none, db) := by
    unfold findDeviceForAuth
    rw [hno]
  rw [hfa]

/-! ## Claim theorems -/

/-- C1, counterexample.  The claim says recordResult is a no-op when no
command with the given id and device is in status sent, and that a second
call for the same commandId leaves doneAt and error untouched.  In the code
the results-loop UPDATE has no status filter: starting from a state whose
only matching command is already done (doneAt 10, after a first report), a
second report for the same commandId flips it to failed, moves doneAt to 20
and rewrites the error text. -/
theorem recordResult_second_call_not_noop :
    (∀ c ∈ dbAfterFirst.commands, ¬ (c.id = 1 ∧ c.deviceId = "dev-1" ∧ c.status = .sent))
    ∧ (cmdById dbAfterFirst 1).map (·.doneAt) = some (some 10)
    ∧ (cmdById dbAfterFirst 1).map (·.status) = some .done
    ∧ (cmdById (recordResult dbAfterFirst "dev-1" (some ⟨some 1, false, none⟩) 20) 1).map
        (·.doneAt) = some (some 20)
    ∧ (cmdById (recordResult dbAfterFirst "dev-1" (some ⟨some 1, false, none⟩) 20) 1).map
        (·.status) = some .failed
    ∧ (cmdById (recordResult dbAfterFirst "dev-1" (some ⟨some 1, false, none⟩) 20) 1).map
        (·.error) = some (some "error") := by
  decide

/-- C1, amended.  recordResult is a no-op exactly when no command with the
given id and matching deviceId exists at all (its status is not consulted);
when such a command exists, every call — including a repeated one — rewrites
its status, doneAt and error to the values derived from the report. -/
theorem recordResult_noop_iff_matching_row (db : DB) (d : String) (rid : Nat) (ok : Bool)
    (err : Option String) (now : Nat) (hWF : WF db) :
    ((∀ c ∈ db.commands, ¬ (c.id = rid ∧ c.deviceId = d)) →
      recordResult db d (some ⟨some rid, ok, err⟩) now = db)
    ∧ (∀ c ∈ db.commands, c.id = rid → c.deviceId = d →
        cmdById (recordResult db d (some ⟨some rid, ok, err⟩) now) rid
          = some (applyResult ok err now c)) := by
  constructor
  · intro hno
    show ({ db with commands := db.commands.map (recordUpd d rid ok err now) } : DB) = db
    have hmap : db.commands.map (recordUpd d rid ok err now) = db.commands := by
      refine (List.map_congr_left ?_).trans (List.map_id _)
      intro c hc
      show recordUpd d rid ok err now c = id c
      unfold recordUpd
      rw [if_neg (hno c hc)]
      rfl
    rw [hmap]
  · intro c hc hid hdev
    show ((db.commands.map (recordUpd d rid ok err now)).find? (fun x => x.id = rid))
      = some (applyResult ok err now c)
    rw [find?_id_map (recordUpd_id d rid ok err now)]
    have hfind := find?_eq_of_mem hWF.1 hc
    rw [hid] at hfind
    rw [hfind, Option.map_some']
    unfold recordUpd
    rw [if_pos ⟨hid, hdev⟩]

/-- C1, witness for the amended theorem: a first report for the sent command
1 of dbOneSent records it with the reported values. -/
theorem recordResult_noop_iff_matching_row_witness :
    cmdById (recordResult dbOneSent "dev-1" (some ⟨some 1, true, none⟩) 10) 1
      = some (applyResult true none 10 cmdSent) :=
  (recordResult_noop_iff_matching_row dbOneSent "dev-1" 1 true none 10 (by decide)).2
    cmdSent (List.mem_cons_self cmdSent []) rfl rfl

/-- C2, counterexample.  The claim says every command's status sequence over
a run is an initial segment of queued, sent, done or queued, sent, failed.
In the run callsReportQueued (enqueue for dev-1, then a poll that reports
command 1 done), command 1 jumps from queued directly to done, skipping
sent — because the results-loop UPDATE accepts reports for commands that
were never dispatched. -/
theorem statusTrace_skips_sent :
    statusTrace dbNoCmds callsReportQueued 1 = [.queued, .done]
    ∧ ¬ ForwardChain [.queued, .done] := by
  decide

/-- C2, amended.  Over any run, a single API call changes the status of the
command with a fixed id only as follows: it leaves it unchanged, creates it
as queued (enqueue), promotes it from queued to sent (dispatch), or sets it
to done or failed from any current status (result recording, which in this
code is not restricted to commands in sent).  In particular a status never
moves back to queued and commands are never deleted, but the sent state can
be skipped and done/failed can be rewritten. -/
theorem applyCall_status_transitions (db : DB) (c : ApiCall) (i : Nat) (hWF : WF db) :
    StatusStep (cmdStatus db i) (cmdStatus (applyCall db c) i) :=
  applyCall_statusStep db c hWF i

/-- C2, witness for the amended theorem at a concrete state and call. -/
theorem applyCall_status_transitions_witness :
    StatusStep (cmdStatus dbOneQueued 1)
      (cmdStatus (applyCall dbOneQueued (.poll pollReportReq 7)) 1) :=
  applyCall_status_transitions dbOneQueued (.poll pollReportReq 7) 1 (by decide)

/-- C3.  Within one poll call all supplied result entries are recorded before
the next batch is dispatched, so a command whose completion is reported in
the call's results list (a non-null entry with a non-falsy id) is never among
the commands the same call returns — whatever state the call starts from. -/
theorem poll_reported_command_not_redispatched (db : DB) (req : PollReq) (now : Nat)
    {rid : Nat} {ok : Bool} {err : Option String}
    (he : some ⟨some rid, ok, err⟩ ∈ req.results) :
    rid ∉ pollCommands db req now := by
  unfold pollCommands poll
  by_cases hv : strTruthy req.deviceId = true ∧ strTruthy req.deviceSecret = true
  · rw [if_pos hv]
    dsimp only
    rcases hfa : findDeviceForAuth db (req.deviceId.getD "") (req.deviceSecret.getD "")
      with ⟨r, db1⟩
    cases r with
    | none => exact List.not_mem_nil rid
    | some dev =>
      dsimp only
      intro hmem
      rw [dispatch_output_ids] at hmem
      rcases List.mem_map.mp hmem with ⟨ch, hch, hchid⟩
      have hsel := selectBatch_mem hch
      have hterm := foldl_record_matching_terminal req.results he db1 (req.deviceId.getD "")
        now ch hsel.1 hchid hsel.2.1
      rcases hterm with ht | ht <;> rw [hsel.2.2] at ht <;> cases ht
  · rw [if_neg hv]
    exact List.not_mem_nil rid

/-- C3, witness: a poll of dbOneQueued reporting command 1 does not get
command 1 back. -/
theorem poll_reported_command_not_redispatched_witness :
    1 ∉ pollCommands dbOneQueued pollReportReq 7 :=
  @poll_reported_command_not_redispatched dbOneQueued pollReportReq 7 1 true none (by decide)

/-- C5.  Device authentication: it succeeds exactly when (a) a truthy stored
secret matches the supplied one, or (b) no truthy secret is stored and the
supplied secret is non-empty with length above the threshold 8, in which
case the supplied secret is persisted as a trust-on-first-use bootstrap
(the source stores the supplied credential itself in device_secret — the
spec's stored hash); after such a bootstrap any call with a different secret
is rejected, and a rejected authentication surfaces as 401 Unauthorized in
the poll endpoint. -/
theorem authenticate_tofu_contract (db : DB) (did s : String) :
    ((findDeviceForAuth db did s).1.isSome = true ↔
      ∃ d, findDevice db did = some d
        ∧ ((strTruthy d.secret = true ∧ d.secret = some s)
          ∨ (strTruthy d.secret = false ∧ s ≠ "" ∧ s.length > 8)))
    ∧ (∀ d, findDevice db did = some d → strTruthy d.secret = false → s ≠ "" →
        s.length > 8 →
        (findDevice (findDeviceForAuth db did s).2 did).map (·.secret) = some (some s))
    ∧ (∀ d, findDevice db did = some d → strTruthy d.secret = false → s ≠ "" →
        s.length > 8 → ∀ s2, s2 ≠ s →
        (findDeviceForAuth (findDeviceForAuth db did s).2 did s2).1 = none)
    ∧ (∀ req : PollReq, ∀ now, strTruthy req.deviceId = true →
        strTruthy req.deviceSecret = true →
        (findDeviceForAuth db (req.deviceId.getD "") (req.deviceSecret.getD "")).1 = none →
        (poll db req now).1 = .unauthorized) := by
  refine ⟨⟨?_, ?_⟩, ?_, ?_, ?_⟩
  · intro hs
    unfold findDeviceForAuth at hs
    cases hd : findDevice db did with
    | none => rw [hd] at hs; cases hs
    | some d =>
      rw [hd] at hs
      dsimp only at hs
      by_cases h1 : strTruthy d.secret = true ∧ d.secret = some s
      · exact ⟨d, rfl, Or.inl h1⟩
      · rw [if_neg h1] at hs
        by_cases h2 : ¬ strTruthy d.secret = true ∧ s ≠ "" ∧ s.length > 8
        · refine ⟨d, rfl, Or.inr ⟨?_, h2.2.1, h2.2.2⟩⟩
          rcases Bool.eq_false_or_eq_true (strTruthy d.secret) with h | h
          · cases h2.1 h
          · exact h
        · rw [if_neg h2] at hs
          cases hs
  · rintro ⟨d, hd, hcase⟩
    unfold findDeviceForAuth
    rw [hd]
    dsimp only
    rcases hcase with h1 | h2
    · rw [if_pos h1]
      rfl
    · have h1' : ¬ (strTruthy d.secret = true ∧ d.secret = some s) := by
        intro hc
        rw [h2.1] at hc
        cases hc.1
      rw [if_neg h1']
      rw [if_pos ⟨by rw [h2.1]; simp, h2.2.1, h2.2.2⟩]
      rfl
  · intro d hd hf hne hlen
    unfold findDeviceForAuth
    rw [hd]
    dsimp only
    rw [if_neg (by intro hc; rw [hf] at hc; cases hc.1)]
    rw [if_pos ⟨by rw [hf]; simp, hne, hlen⟩]
    show (findDevice (setSecret db did s) did).map (·.secret) = some (some s)
    rw [findDevice_setSecret, hd, Option.map_some', Option.map_some']
  · intro d hd hf hne hlen s2 hs2
    have hts : strTruthy (some s) = true := by
      simp [strTruthy]
      exact hne
    have hboot : (findDeviceForAuth db did s).2 = setSecret db did s := by
      unfold findDeviceForAuth
      rw [hd]
      dsimp only
      rw [if_neg (by intro hc; rw [hf] at hc; cases hc.1)]
      rw [if_pos ⟨by rw [hf]; simp, hne, hlen⟩]
    rw [hboot]
    unfold findDeviceForAuth
    rw [findDevice_setSecret, hd, Option.map_some']
    dsimp only
    have hc1 : ¬ (strTruthy (some s) = true ∧ (some s : Option String) = some s2) := by
      intro hc
      exact hs2 (Option.some_injective _ hc.2).symm
    have hc2 : ¬ (¬ strTruthy (some s) = true ∧ s2 ≠ "" ∧ s2.length > 8) := by
      intro hc
      exact hc.1 hts
    rw [if_neg hc1, if_neg hc2]
  · intro req now h1 h2 hnone
    unfold poll
    rw [if_pos ⟨h1, h2⟩]
    dsimp only
    rcases hfa : findDeviceForAuth db (req.deviceId.getD "") (req.deviceSecret.getD "")
      with ⟨r, db1⟩
    rw [hfa] at hnone
    cases r with
    | none => rfl
    | some dev => simp at hnone

/-- C5, witness: a device without a stored secret is claimed by an
11-character secret, which is persisted. -/
theorem authenticate_tofu_contract_witness :
    (findDevice (findDeviceForAuth dbBootstrap "dev-1" "secret12345").2 "dev-1").map (·.secret)
      = some (some "secret12345") :=
  (authenticate_tofu_contract dbBootstrap "dev-1" "secret12345").2.1 devNoSecret
    (by decide) (by decide) (by decide) (by decide)

/-- C6, counterexample.  The claim says the batch is selected in creation
order with ties broken by insertion id.  The source's subquery orders by
created_at ascending only, and its ids are random uuids, so the relative
order of rows with equal created_at is unspecified.  admissibleBatch captures
exactly that guarantee, and the enumeration that lists cmdUpdate (id 2)
before cmdPing (id 1) — both created at time 3 — is admissible: an execution
may return the tie in non-insertion-id order, so the claimed tie-break does
not hold. -/
theorem dispatch_tie_order_not_insertion_id :
    admissibleBatch dbTwoQueued "dev-1" 5 [cmdUpdate, cmdPing]
    ∧ cmdUpdate.createdAt = cmdPing.createdAt
    ∧ [cmdUpdate, cmdPing].map (·.id) = [2, 1]
    ∧ ¬ List.Pairwise (fun a b => a.id < b.id) [cmdUpdate, cmdPing] := by
  refine ⟨⟨[cmdUpdate, cmdPing], ?_, by decide, rfl⟩, by decide, by decide, by decide⟩
  have hq : queuedFor dbTwoQueued "dev-1" = [cmdPing, cmdUpdate] := rfl
  rw [hq]
  exact List.Perm.swap cmdPing cmdUpdate []

/-- C6, amended.  Every admissible result of the dispatch subquery (any
created_at-nondecreasing enumeration of the device's queued rows, truncated
to the clamp) contains at most min(max(maxCount, 1), 20) commands, only
queued commands of the polled device, and is nondecreasing in creation time
— but the order of commands with equal created_at is unspecified, so no
insertion-id tie-break is guaranteed.  The model's own selection is
admissible, every returned command is transitioned to sent with sentAt set,
and the rows of every other device are untouched. -/
theorem takeNextBatch_contract (db : DB) (d : String) (m : Int) (now : Nat) (hWF : WF db) :
    (∀ sel, admissibleBatch db d m sel →
        sel.length ≤ (min (max m 1) 20).toNat
        ∧ (∀ c ∈ sel, c ∈ db.commands ∧ c.deviceId = d ∧ c.status = .queued)
        ∧ sel.Pairwise createdLE)
    ∧ admissibleBatch db d m (selectBatch db d m)
    ∧ (∀ c ∈ (dispatch db d m now).1,
        c.status = .sent ∧ c.sentAt = some now ∧ c.deviceId = d)
    ∧ (∀ c ∈ (dispatch db d m now).1, ∃ c0 ∈ db.commands,
        c0.deviceId = d ∧ c0.status = .queued ∧ c = markSent now c0)
    ∧ ((dispatch db d m now).2).commands.filter (fun c => ¬ c.deviceId = d)
        = db.commands.filter (fun c => ¬ c.deviceId = d) := by
  refine ⟨?_, ?_, ?_, ?_, dispatch_other_devices hWF d m now⟩
  · intro sel hsel
    rcases hsel with ⟨perm, hperm, hsort, rfl⟩
    refine ⟨?_, ?_, ?_⟩
    · rw [List.length_take]
      have hcl : clampMax m = min (max m 1) 20 := by
        unfold clampMax
        omega
      rw [← hcl]
      exact min_le_left _ _
    · intro c hc
      have hcq : c ∈ queuedFor db d := hperm.subset (List.take_subset _ _ hc)
      have h3 := List.mem_filter.mp hcq
      exact ⟨h3.1, (of_decide_eq_true h3.2).1, (of_decide_eq_true h3.2).2⟩
    · exact List.Pairwise.sublist (List.take_sublist _ _) hsort
  · exact ⟨(queuedFor db d).insertionSort createdLE, List.perm_insertionSort _ _,
      List.sorted_insertionSort _ _, rfl⟩
  · intro c hc
    rw [dispatch_rows] at hc
    rcases List.mem_map.mp hc with ⟨c0, hc0, rfl⟩
    exact ⟨rfl, rfl, (selectBatch_mem hc0).2.1⟩
  · intro c hc
    rw [dispatch_rows] at hc
    rcases List.mem_map.mp hc with ⟨c0, hc0, rfl⟩
    have hsel := selectBatch_mem hc0
    exact ⟨c0, hsel.1, hsel.2.1, hsel.2.2, rfl⟩

/-- C6, witness: the model's own selection on a state with two queued
commands is admissible, and the dispatched rows are sent-marked. -/
theorem takeNextBatch_contract_witness :
    admissibleBatch dbTwoQueued "dev-1" 5 (selectBatch dbTwoQueued "dev-1" 5)
    ∧ (∀ c ∈ (dispatch dbTwoQueued "dev-1" 5 9).1,
        c.status = .sent ∧ c.sentAt = some 9 ∧ c.deviceId = "dev-1") :=
  ⟨(takeNextBatch_contract dbTwoQueued "dev-1" 5 9 (by decide)).2.1,
   (takeNextBatch_contract dbTwoQueued "dev-1" 5 9 (by decide)).2.2.1⟩

/-- C7, counterexample.  The claim says enqueuing for a nonexistent deviceId
fails with NotFound.  The code does not pre-check the device: the INSERT hits
the foreign-key constraint and the catch block answers 500 (ServerError),
not 404 — though indeed no command row is created. -/
theorem enqueue_unknown_device_not_notFound :
    findDevice dbEmpty "ghost" = none
    ∧ (enqueue dbEmpty "ghost" (some "ping") (some (.obj [])) 7).1 = .serverError
    ∧ (enqueue dbEmpty "ghost" (some "ping") (some (.obj [])) 7).1 ≠ .notFound
    ∧ ApiStatus.serverError.code = 500
    ∧ ApiStatus.notFound.code = 404
    ∧ (enqueue dbEmpty "ghost" (some "ping") (some (.obj [])) 7).2.commands.length = 0 := by
  decide

/-- C7, amended.  Enqueue answers 400 when kind is falsy or typeof payload
is not 'object' (a check that also admits null and arrays); when that check
passes but the deviceId references no device, the insert fails on the
foreign key and surfaces as a 500 ServerError (not NotFound), creating no
row; a null payload surfaces as a 500 via the NOT NULL constraint; a
non-empty array payload surfaces as a 500 because node-pg serializes it as a
Postgres array literal that fails jsonb input, while the empty array is
stored as the empty object; an object payload is appended as a new command
with status queued and createdAt = now. -/
theorem enqueue_behavior (db : DB) (d : String) (k : Option String) (p : Option Json)
    (now : Nat) :
    (¬ (strTruthy k = true) ∨ ¬ ((p.map Json.typeofObject).getD false = true) →
        enqueue db d k p now = (.badRequest, db))
    ∧ (strTruthy k = true → (p.map Json.typeofObject).getD false = true →
        findDevice db d = none → enqueue db d k p now = (.serverError, db))
    ∧ (strTruthy k = true → p = some .null → (findDevice db d).isSome = true →
        enqueue db d k p now = (.serverError, db))
    ∧ (strTruthy k = true → ∀ x xs, p = some (.arr (x :: xs)) →
        (findDevice db d).isSome = true →
        enqueue db d k p now = (.serverError, db))
    ∧ (strTruthy k = true → ∀ fields, p = some (.obj fields) →
        (findDevice db d).isSome = true →
        enqueue db d k p now = (.ok, appendCommand db d (k.getD "") (.obj fields) now))
    ∧ (strTruthy k = true → p = some (.arr []) → (findDevice db d).isSome = true →
        enqueue db d k p now = (.ok, appendCommand db d (k.getD "") (.obj []) now)) := by
  have hnotNone : ∀ h : (findDevice db d).isSome = true,
      ¬ ((findDevice db d).isNone = true) := by
    intro h hn
    rw [Option.isNone_iff_eq_none] at hn
    rw [hn] at h
    cases h
  refine ⟨?_, ?_, ?_, ?_, ?_, ?_⟩
  · intro h
    unfold enqueue
    rw [if_pos h]
  · intro hk hp hno
    unfold enqueue
    rw [if_neg (by push_neg; exact ⟨hk, hp⟩)]
    rw [if_pos (by rw [hno]; rfl)]
  · intro hk hpj hsome
    unfold enqueue
    subst hpj
    rw [if_neg (by push_neg; exact ⟨hk, rfl⟩)]
    rw [if_neg (hnotNone hsome)]
    rfl
  · intro hk x xs hpj hsome
    unfold enqueue
    subst hpj
    rw [if_neg (by push_neg; exact ⟨hk, rfl⟩)]
    rw [if_neg (hnotNone hsome)]
    rfl
  · intro hk fields hpj hsome
    unfold enqueue
    subst hpj
    rw [if_neg (by push_neg; exact ⟨hk, rfl⟩)]
    rw [if_neg (hnotNone hsome)]
    rfl
  · intro hk hpj hsome
    unfold enqueue
    subst hpj
    rw [if_neg (by push_neg; exact ⟨hk, rfl⟩)]
    rw [if_neg (hnotNone hsome)]
    rfl

/-- C7, witness: a valid enqueue of an object payload for an existing device
appends a queued command, and a non-empty array payload errors with 500. -/
theorem enqueue_behavior_witness :
    enqueue dbNoCmds "dev-1" (some "ping") (some (.obj [])) 4
      = (.ok, appendCommand dbNoCmds "dev-1" "ping" (.obj []) 4)
    ∧ enqueue dbNoCmds "dev-1" (some "ping") (some (.arr [.num 1])) 4
      = (.serverError, dbNoCmds) :=
  ⟨(enqueue_behavior dbNoCmds "dev-1" (some "ping") (some (.obj [])) 4).2.2.2.2.1
     (by decide) [] rfl (by decide),
   (enqueue_behavior dbNoCmds "dev-1" (some "ping") (some (.arr [.num 1])) 4).2.2.2.1
     (by decide) (.num 1) [] rfl (by decide)⟩

/-- C8, counterexample.  The claim says admin endpoints fail with
ServiceUnavailable when no admin token is configured and never grant access
then.  The current server's adminAuth passes every request through when the
token is unset (fail-open) — only the earlier revision returned 503. -/
theorem adminAuth_failopen_when_unconfigured :
    adminAuth none (some "Bearer anything") = .next
    ∧ adminAuth none (some "Bearer anything") ≠ .unavailable
    ∧ adminAuth none none = .next
    ∧ enqueueEndpoint none (some "Bearer anything") dbNoCmds "dev-1" (some "ping")
        (some (.obj [])) 4 = enqueue dbNoCmds "dev-1" (some "ping") (some (.obj [])) 4
    ∧ adminAuthLegacy none (some "Bearer anything") = .unavailable := by
  refine ⟨by decide, by decide, by decide, rfl, by decide⟩

/-- C8, amended.  With an admin token configured, every admin endpoint (they
all share the adminAuth middleware) rejects a mismatched bearer credential
with 401 Unauthorized and admits a matching one; with no token configured the
current server's adminAuth admits every request (fail-open), whereas the
legacy revision's adminAuth answered 503 ServiceUnavailable. -/
theorem adminAuth_contract (tok hdr : Option String) :
    (strTruthy tok = true → bearerToken hdr ≠ tok.getD "" →
        adminAuth tok hdr = .unauthorized)
    ∧ (strTruthy tok = true → bearerToken hdr = tok.getD "" → adminAuth tok hdr = .next)
    ∧ (strTruthy tok = false → adminAuth tok hdr = .next)
    ∧ (strTruthy tok = false → adminAuthLegacy tok hdr = .unavailable)
    ∧ (strTruthy tok = true → hdr.getD "" ≠ "Bearer " ++ tok.getD "" →
        adminAuthLegacy tok hdr = .unauthorized)
    ∧ (∀ db d k p now, adminAuth tok hdr = .unauthorized →
        enqueueEndpoint tok hdr db d k p now = (.unauthorized, db)) := by
  refine ⟨?_, ?_, ?_, ?_, ?_, ?_⟩
  · intro ht hne
    unfold adminAuth
    rw [if_neg (by push_neg; exact ⟨ht, hne⟩)]
  · intro ht he
    unfold adminAuth
    rw [if_pos (Or.inr he)]
  · intro hf
    unfold adminAuth
    rw [if_pos (Or.inl (by rw [hf]; simp))]
  · intro hf
    unfold adminAuthLegacy
    rw [if_pos (by rw [hf]; simp)]
  · intro ht hne
    unfold adminAuthLegacy
    rw [if_neg (by rw [ht]; simp)]
    rw [if_neg hne]
  · intro db d k p now hu
    unfold enqueueEndpoint
    rw [hu]

/-- C8, witness for the amended theorem at a configured token and a
mismatched credential. -/
theorem adminAuth_contract_witness :
    adminAuth (some "tok") (some "Bearer other") = .unauthorized
    ∧ enqueueEndpoint (some "tok") (some "Bearer other") dbEmpty "dev-1" (some "ping")
        (some (.obj [])) 4 = (.unauthorized, dbEmpty) :=
  ⟨(adminAuth_contract (some "tok") (some "Bearer other")).1 (by decide) (by decide),
   (adminAuth_contract (some "tok") (some "Bearer other")).2.2.2.2.2 dbEmpty "dev-1"
     (some "ping") (some (.obj [])) 4
     ((adminAuth_contract (some "tok") (some "Bearer other")).1 (by decide) (by decide))⟩

/-- C9, counterexample.  The claim says a register call presenting a
different secret for an existing deviceId does not replace the stored
secret.  In the code the upsert sets device_secret to
COALESCE(EXCLUDED.device_secret, old), and since register rejects requests
without a secret the excluded value is never null: re-registering dev-9 with
a second secret replaces the first. -/
theorem register_replaces_secret :
    ((findDevice (register dbEmpty regFirst none 1).2 "dev-9").map (·.secret))
      = some (some "firstsecret1")
    ∧ regSecond.deviceSecret ≠ regFirst.deviceSecret
    ∧ ((findDevice (register (register dbEmpty regFirst none 1).2 regSecond none 2).2
        "dev-9").map (·.secret)) = some (some "secondsecret2") := by
  decide

/-- C9, amended.  A register call with valid fields for an existing device
always replaces the stored secret with the supplied one (the COALESCE
fallback is dead because the secret field is required); the only write that
refuses to overwrite is the poll-path bootstrap: findDeviceForAuth leaves the
state of a device with a truthy stored secret completely unchanged. -/
theorem secret_overwrite_behavior (db : DB) (req : RegisterReq) (ip : Option String)
    (now : Nat) :
    (strTruthy req.deviceId = true → strTruthy req.deviceSecret = true →
      ∀ d, findDevice db (req.deviceId.getD "") = some d →
        (findDevice (register db req ip now).2 (req.deviceId.getD "")).map (·.secret)
          = some req.deviceSecret)
    ∧ (∀ did s d, findDevice db did = some d → strTruthy d.secret = true →
        (findDeviceForAuth db did s).2 = db) := by
  constructor
  · intro h1 h2 d hd
    unfold register
    rw [if_pos ⟨h1, h2⟩]
    show (findDevice (upsertDevice db req ip now) (req.deviceId.getD "")).map (·.secret)
      = some req.deviceSecret
    unfold upsertDevice
    dsimp only
    rw [hd]
    dsimp only
    rw [findDevice_map_upd db (req.deviceId.getD "") (fun e => by split <;> rfl)]
    rw [hd, Option.map_some', Option.map_some']
    have hdid : d.deviceId = req.deviceId.getD "" := by
      have := List.find?_some hd
      simpa using this
    rw [if_pos hdid]
    dsimp only
    cases hsec : req.deviceSecret with
    | none => rw [hsec] at h2; cases h2
    | some sv => rfl
  · intro did s d hd ht
    exact findDeviceForAuth_keeps_truthy_secret db did s hd ht

/-- C9, witness: re-registering dev-9 with a second secret stores that
second secret. -/
theorem secret_overwrite_behavior_witness :
    (findDevice (register (register dbEmpty regFirst none 1).2 regSecond none 2).2
      "dev-9").map (·.secret) = some regSecond.deviceSecret :=
  (secret_overwrite_behavior (register dbEmpty regFirst none 1).2 regSecond none 2).1
    (by decide) (by decide) devRegFirst (by decide)

/-- C10, counterexample.  The claim says every poll request whose deviceId
has no device record is answered with Unauthorized.  A poll request for the
unknown device "ghost" that carries an empty (falsy) secret is answered 400
(missing fields), not 401: the missing-field validation runs before
authentication. -/
theorem poll_unknown_empty_secret_badRequest :
    pollEmptySecretReq.deviceId = some "ghost"
    ∧ findDevice dbEmpty "ghost" = none
    ∧ (poll dbEmpty pollEmptySecretReq 5).1.code = 400
    ∧ (poll dbEmpty pollEmptySecretReq 5).1.code ≠ 401 := by
  decide

/-- C10, amended.  A poll request that passes the missing-field check
(truthy deviceId and deviceSecret) for a deviceId with no device record is
answered 401 Unauthorized (not NotFound) and leaves the state completely
unchanged; a poll never adds a device row (it can only update existing ones
via the secret bootstrap), and enqueue never touches the devices table — a
device identity can only come into existence through register. -/
theorem poll_unknown_device_contract (db : DB) (req : PollReq) (now : Nat) :
    (strTruthy req.deviceId = true → strTruthy req.deviceSecret = true →
      findDevice db (req.deviceId.getD "") = none →
      poll db req now = (.unauthorized, db))
    ∧ ((poll db req now).2.devices.map (·.deviceId) = db.devices.map (·.deviceId))
    ∧ (∀ d k p now2, ((enqueue db d k p now2).2).devices = db.devices) :=
  ⟨fun h1 h2 h3 => poll_unknown_unauthorized db req now h1 h2 h3,
   poll_devices_ids db req now,
   fun d k p now2 => enqueue_devices db d k p now2⟩

/-- C10, witness: a poll with truthy credentials for the unknown device
"ghost" is answered 401 and changes nothing. -/
theorem poll_unknown_device_contract_witness :
    poll dbEmpty pollGhostReq 5 = (.unauthorized, dbEmpty) :=
  (poll_unknown_device_contract dbEmpty pollGhostReq 5).1 (by decide) (by decide) (by decide)
